import Mathlib

/-!
Verification of the QR-attendance core of app.py: the token issuer
(admin_generate_qr), the token validator and the check-in processor
(student_scan).  Entities and handlers are embedded shallowly: the
database is a record of lists, timestamps are natural numbers (seconds),
and each route handler is a function from a store and its request data to
an updated store and a response value.
-/

namespace QRAttendance

/-- Student entity (app.py, class Student): unique roll number plus the
batch and course used for eligibility filtering. -/
structure Student where
  id : Nat
  roll_number : String
  name : String
  batch : String
  course : String
  year : String
  device_id : Option String
deriving DecidableEq

/-- ClassSession entity (app.py, class ClassSession).  Dates and times are
modelled as natural numbers. -/
structure ClassSession where
  id : Nat
  course : String
  batch : String
  room : String
  teacher_id : Nat
  date : Nat
  start_time : Nat
  end_time : Nat
deriving DecidableEq

/-- QRSession entity (app.py, class QRSession): the spec calls it QRToken.
The token field is the opaque secret embedded in the QR url. -/
structure QRSession where
  id : Nat
  class_session_id : Nat
  token : String
  created_at : Nat
  expires_at : Nat
  active : Bool
deriving DecidableEq

/-- Attendance entity (app.py, class Attendance): the spec calls it
AttendanceRecord.  Its column defaults are timestamp = utcnow and
status = "Present". -/
structure Attendance where
  id : Nat
  student_id : Nat
  class_session_id : Nat
  timestamp : Nat
  status : String
deriving DecidableEq

/-- The persistent store: the tables the core logic touches, with
autoincrement counters supplying fresh primary keys. -/
structure Store where
  students : List Student
  class_sessions : List ClassSession
  qr_sessions : List QRSession
  attendance : List Attendance
  next_qr_id : Nat
  next_att_id : Nat
deriving DecidableEq

/-- Outcome of the token-validation prefix of student_scan (app.py lines
456 to 463).  On success the handler keeps both the QRSession row and its
related ClassSession; fkMissing is the (integrity-violating) case where
the class_session foreign key does not resolve. -/
inductive ValidateResult where
  | ok (qs : QRSession) (cs : ClassSession)
  | invalidOrInactive
  | expired
  | fkMissing
deriving DecidableEq

/-- Response of the student_scan route.  Each constructor mirrors one
distinct response the handler can produce: the three 400 texts, the GET
form render, the two flash-and-redirect branches of the POST path, the
200 duplicate text and the success render. -/
inductive ScanResult where
  | invalidParams
  | invalidOrInactive
  | expired
  | fkMissing
  | scanForm (cs : ClassSession)
  | missingRoll
  | invalidRoll
  | alreadyMarked (a : Attendance)
  | success (a : Attendance) (st : Student) (cs : ClassSession)
deriving DecidableEq

/-- Token validation as performed at the top of student_scan (app.py lines
456 to 461): look up the QRSession by primary key, reject with the single
combined 400 response when it is absent, its secret differs or it is
inactive, reject as expired when utcnow is strictly past expires_at, then
resolve the class_session relationship of line 463. -/
def validate (s : Store) (now : Nat) (sid : Nat) (tok : String) :
    ValidateResult :=
  match s.qr_sessions.find? (fun q => q.id == sid) with
  | none => ValidateResult.invalidOrInactive
  | some qs =>
    if qs.token != tok || !qs.active then ValidateResult.invalidOrInactive
    else if now > qs.expires_at then ValidateResult.expired
    else
      match s.class_sessions.find? (fun cs => cs.id == qs.class_session_id) with
      | none => ValidateResult.fkMissing
      | some cs => ValidateResult.ok qs cs

/-- The scan route (app.py, student_scan).  sid and tok are the query
parameters (none when absent, and an empty token string is falsy exactly
like an absent one), isPost selects the HTTP method, roll is the
submitted form field.  Returns the possibly updated store and the
response.  The POST path resolves the roll number with a single query
filtering simultaneously on roll_number, the session batch and the
session course, checks for an existing attendance row for the
(student, class session) pair, and otherwise inserts a fresh row using
the Attendance column defaults. -/
def student_scan (s : Store) (now : Nat) (sid : Option Nat)
    (tok : Option String) (isPost : Bool) (roll : Option String) :
    Store × ScanResult :=
  match sid, tok with
  | some sidv, some tokv =>
    if tokv = "" then (s, ScanResult.invalidParams)
    else
      match validate s now sidv tokv with
      | ValidateResult.invalidOrInactive => (s, ScanResult.invalidOrInactive)
      | ValidateResult.expired => (s, ScanResult.expired)
      | ValidateResult.fkMissing => (s, ScanResult.fkMissing)
      | ValidateResult.ok _qs class_sess =>
        if isPost then
          match roll with
          | none => (s, ScanResult.missingRoll)
          | some rollv =>
            if rollv = "" then (s, ScanResult.missingRoll)
            else
              match s.students.find? (fun st =>
                  st.roll_number == rollv && st.batch == class_sess.batch
                    && st.course == class_sess.course) with
              | none => (s, ScanResult.invalidRoll)
              | some student =>
                match s.attendance.find? (fun r =>
                    r.student_id == student.id
                      && r.class_session_id == class_sess.id) with
                | some r => (s, ScanResult.alreadyMarked r)
                | none =>
                  let a : Attendance :=
                    { id := s.next_att_id, student_id := student.id,
                      class_session_id := class_sess.id, timestamp := now,
                      status := "Present" }
                  ({ s with
                      attendance := s.attendance ++ [a],
                      next_att_id := s.next_att_id + 1 },
                   ScanResult.success a student class_sess)
        else (s, ScanResult.scanForm class_sess)
  | _, _ => (s, ScanResult.invalidParams)

/-- Deactivation step of admin_generate_qr (app.py line 337): set active
to false on every currently active QRSession of the given class
session. -/
def deactivateActive (cid : Nat) (l : List QRSession) : List QRSession :=
  l.map (fun q =>
    if q.class_session_id == cid && q.active then { q with active := false }
    else q)

/-- The QR-issuance route (app.py, admin_generate_qr): require the class
session to exist (get_or_404), deactivate its previously active tokens,
then insert a fresh token whose expiry is 30 seconds after creation.  The
random url-safe secret that secrets.token_urlsafe produces is supplied by
the caller as tok. -/
def admin_generate_qr (s : Store) (cid : Nat) (tok : String) (now : Nat) :
    Store × Option QRSession :=
  match s.class_sessions.find? (fun cs => cs.id == cid) with
  | none => (s, none)
  | some _ =>
    let qs : QRSession :=
      { id := s.next_qr_id, class_session_id := cid, token := tok,
        created_at := now, expires_at := now + 30, active := true }
    ({ s with
        qr_sessions := deactivateActive cid s.qr_sessions ++ [qs],
        next_qr_id := s.next_qr_id + 1 },
     some qs)

/-! Concrete example data used by the witnesses and counterexamples. -/

/-- A student of batch B1, course CS, roll number 7. -/
def exStudent : Student :=
  { id := 1, roll_number := "7", name := "Ana", batch := "B1",
    course := "CS", year := "1", device_id := none }

/-- A student of batch B2 (mismatching exSession), roll number 8. -/
def exStudentB2 : Student :=
  { id := 2, roll_number := "8", name := "Ben", batch := "B2",
    course := "CS", year := "1", device_id := none }

/-- A class session for batch B1, course CS. -/
def exSession : ClassSession :=
  { id := 1, course := "CS", batch := "B1", room := "R1", teacher_id := 1,
    date := 0, start_time := 0, end_time := 0 }

/-- An active token for exSession expiring at time 30. -/
def exToken : QRSession :=
  { id := 1, class_session_id := 1, token := "tok", created_at := 0,
    expires_at := 30, active := true }

/-- An inactive token for exSession with the same secret. -/
def exTokenInactive : QRSession :=
  { id := 2, class_session_id := 1, token := "tok", created_at := 0,
    expires_at := 30, active := false }

/-- A store holding the two students, the session and both tokens. -/
def exStore : Store :=
  { students := [exStudent, exStudentB2], class_sessions := [exSession],
    qr_sessions := [exToken, exTokenInactive], attendance := [],
    next_qr_id := 3, next_att_id := 1 }

/-! Helper lemmas about list search and counting. -/

/-- find? over an append whose first part has no match searches the second
part. -/
theorem find?_append_none {α : Type} (p : α → Bool) (l1 l2 : List α)
    (h : l1.find? p = none) : (l1 ++ l2).find? p = l2.find? p := by
  induction l1 with
  | nil => rfl
  | cons x l ih =>
    cases hx : p x with
    | true => rw [List.find?_cons_of_pos _ hx] at h; cases h
    | false =>
      have hx' : ¬p x = true := by simp [hx]
      rw [List.find?_cons_of_neg _ hx'] at h
      rw [List.cons_append, List.find?_cons_of_neg _ hx']
      exact ih h

/-- Deactivation does not change a token's id. -/
theorem deactivateActive_id (cid : Nat) (q : QRSession) :
    (if q.class_session_id == cid && q.active then { q with active := false }
      else q).id = q.id := by
  split <;> rfl

/-- After deactivation, no token of the given class session is active. -/
theorem deactivateActive_not_active (cid : Nat) (l : List QRSession) :
    ∀ q ∈ deactivateActive cid l,
      ¬(q.class_session_id == cid && q.active) = true := by
  intro q hq
  unfold deactivateActive at hq
  rw [List.mem_map] at hq
  obtain ⟨p, _, rfl⟩ := hq
  by_cases hc : (p.class_session_id == cid && p.active) = true
  · simp only [if_pos hc]
    simp only [Bool.and_eq_true] at hc ⊢
    intro hcon
    exact Bool.false_ne_true hcon.2
  · rw [if_neg hc]; exact hc

/-! Claim theorems. -/

/-- C8: token validation is read-only.  The GET branch of the scan route,
which performs exactly the validation checks, returns the store unchanged
for every store and every combination of query parameters, so it can be
repeated without consuming the token. -/
theorem C8_validate_read_only (s : Store) (now : Nat) (sid : Option Nat)
    (tok : Option String) (roll : Option String) :
    (student_scan s now sid tok false roll).1 = s := by
  cases sid with
  | none => cases tok <;> rfl
  | some sidv =>
    cases tok with
    | none => rfl
    | some tokv =>
      simp only [student_scan]
      by_cases h1 : tokv = ""
      · rw [if_pos h1]
      · rw [if_neg h1]
        cases validate s now sidv tokv <;> rfl

/-- C8 witness: validating the example token twice leaves the example
store untouched. -/
theorem C8_validate_read_only_witness :
    (student_scan exStore 5 (some 1) (some ("tok")) false none).1 = exStore :=
  C8_validate_read_only exStore 5 (some 1) (some ("tok")) none

/-- C10: issuance only touches tokens of the given session.  The student,
class-session and attendance tables are returned unchanged, and every
token of a different class session is still present with all its fields
intact. -/
theorem C10_issue_frame (s : Store) (cid : Nat) (tok : String) (now : Nat) :
    (admin_generate_qr s cid tok now).1.students = s.students
    ∧ (admin_generate_qr s cid tok now).1.class_sessions = s.class_sessions
    ∧ (admin_generate_qr s cid tok now).1.attendance = s.attendance
    ∧ ∀ q ∈ s.qr_sessions, q.class_session_id ≠ cid →
        q ∈ (admin_generate_qr s cid tok now).1.qr_sessions := by
  unfold admin_generate_qr
  split
  · exact ⟨rfl, rfl, rfl, fun q hq _ => hq⟩
  · refine ⟨rfl, rfl, rfl, fun q hq hne => ?_⟩
    simp only [List.mem_append]
    left
    unfold deactivateActive
    rw [List.mem_map]
    refine ⟨q, hq, ?_⟩
    have : (q.class_session_id == cid) = false := by
      simp only [beq_eq_false_iff_ne, ne_eq]; exact hne
    rw [this, Bool.false_and, if_neg (by simp)]

/-- C10 witness: issuing a token for session 2 keeps the token of
session 1 in the example store. -/
theorem C10_issue_frame_witness :
    exToken ∈ (admin_generate_qr exStore 2 "new" 7).1.qr_sessions :=
  (C10_issue_frame exStore 2 "new" 7).2.2.2 exToken (by decide) (by decide)

/-- C2: immediately after a successful issuance, the new token is active
and belongs to the requested session, exactly one token of that session is
active in the resulting store, and any active token of that session is the
new one. -/
theorem C2_single_active_token (s : Store) (cid : Nat) (tok : String)
    (now : Nat) (s1 : Store) (t : QRSession)
    (h : admin_generate_qr s cid tok now = (s1, some t)) :
    t.active = true ∧ t.class_session_id = cid
    ∧ s1.qr_sessions.countP
        (fun q => q.class_session_id == cid && q.active) = 1
    ∧ ∀ q ∈ s1.qr_sessions, q.class_session_id = cid → q.active = true →
        q = t := by
  unfold admin_generate_qr at h
  split at h
  · exact absurd (congrArg Prod.snd h) (by simp)
  · rw [Prod.mk.injEq] at h
    obtain ⟨hs1, ht⟩ := h
    rw [Option.some.injEq] at ht
    subst hs1
    subst ht
    refine ⟨rfl, rfl, ?_, ?_⟩
    · rw [List.countP_append]
      have hzero : (deactivateActive cid s.qr_sessions).countP
          (fun q => q.class_session_id == cid && q.active) = 0 :=
        List.countP_eq_zero.mpr (deactivateActive_not_active cid s.qr_sessions)
      rw [hzero]
      simp
    · intro q hq hcid hact
      rw [List.mem_append] at hq
      cases hq with
      | inl hq =>
        exact absurd (by rw [hcid, hact]; simp)
          (deactivateActive_not_active cid s.qr_sessions q hq)
      | inr hq => simpa using hq

/-- C2 witness: issuing a fresh token for session 1 of the example store
leaves exactly one active token for that session. -/
theorem C2_single_active_token_witness :
    ((admin_generate_qr exStore 1 "new" 7).1.qr_sessions.countP
      (fun q => q.class_session_id == 1 && q.active)) = 1 :=
  (C2_single_active_token exStore 1 "new" 7 (admin_generate_qr exStore 1 "new" 7).1
    { id := 3, class_session_id := 1, token := "new", created_at := 7,
      expires_at := 37, active := true } (by rfl)).2.2.1

/-- Validating the token returned by an issuance, in the store the
issuance produced, succeeds or expires purely by the clock comparison. -/
theorem validate_after_issue (s : Store) (cid now now2 : Nat) (tok : String)
    (cs : ClassSession) (s1 : Store) (t : QRSession)
    (hc : s.class_sessions.find? (fun c => c.id == cid) = some cs)
    (hfresh : ∀ q ∈ s.qr_sessions, q.id ≠ s.next_qr_id)
    (h : admin_generate_qr s cid tok now = (s1, some t)) :
    validate s1 now2 t.id tok =
      if now2 > t.expires_at then ValidateResult.expired
      else ValidateResult.ok t cs := by
  unfold admin_generate_qr at h
  rw [hc, Prod.mk.injEq, Option.some.injEq] at h
  obtain ⟨hs1, ht⟩ := h
  subst hs1
  subst ht
  have hnone : (deactivateActive cid s.qr_sessions).find?
      (fun q => q.id == s.next_qr_id) = none := by
    rw [List.find?_eq_none]
    intro x hx
    unfold deactivateActive at hx
    rw [List.mem_map] at hx
    obtain ⟨p, hp, rfl⟩ := hx
    simp only [deactivateActive_id, beq_iff_eq]
    exact hfresh p hp
  unfold validate
  dsimp only
  rw [find?_append_none _ _ _ hnone, List.find?_cons_of_pos _ (by simp)]
  dsimp only
  rw [bne_self_eq_false, Bool.not_true, Bool.or_false, if_neg (by simp)]
  by_cases h2 : now2 > now + 30
  · rw [if_pos h2, if_pos h2]
  · rw [if_neg h2, if_neg h2, hc]

/-- C6: the token issued at time T0 carries expires_at equal to T0 plus
30 seconds; validating it at T0 plus 29 succeeds with the associated
class session, and validating it at T0 plus 31 fails as expired. -/
theorem C6_expiry_window (s : Store) (cid T0 : Nat) (tok : String)
    (cs : ClassSession) (s1 : Store) (t : QRSession)
    (hc : s.class_sessions.find? (fun c => c.id == cid) = some cs)
    (hfresh : ∀ q ∈ s.qr_sessions, q.id ≠ s.next_qr_id)
    (h : admin_generate_qr s cid tok T0 = (s1, some t)) :
    t.expires_at = T0 + 30
    ∧ validate s1 (T0 + 29) t.id tok = ValidateResult.ok t cs
    ∧ validate s1 (T0 + 31) t.id tok = ValidateResult.expired := by
  have hexp : t.expires_at = T0 + 30 := by
    unfold admin_generate_qr at h
    rw [hc, Prod.mk.injEq, Option.some.injEq] at h
    rw [← h.2]
  refine ⟨hexp, ?_, ?_⟩
  · rw [validate_after_issue s cid T0 (T0 + 29) tok cs s1 t hc hfresh h, hexp,
      if_neg (by omega)]
  · rw [validate_after_issue s cid T0 (T0 + 31) tok cs s1 t hc hfresh h, hexp,
      if_pos (by omega)]

/-- C6 witness: a token issued for the example session at time 100
expires at 130, validates at time 129 and is expired at time 131. -/
theorem C6_expiry_window_witness :
    validate (admin_generate_qr exStore 1 "new" 100).1 129 3 "new"
        = ValidateResult.ok
          { id := 3, class_session_id := 1, token := "new",
            created_at := 100, expires_at := 130, active := true } exSession
    ∧ validate (admin_generate_qr exStore 1 "new" 100).1 131 3 "new"
        = ValidateResult.expired :=
  have h := C6_expiry_window exStore 1 100 "new" exSession
    (admin_generate_qr exStore 1 "new" 100).1
    { id := 3, class_session_id := 1, token := "new", created_at := 100,
      expires_at := 130, active := true } (by decide) (by decide) (by rfl)
  ⟨h.2.1, h.2.2⟩

/-- C3: for a stored token whose class-session reference resolves,
validation returns the associated class session exactly when the clock
has not passed expires_at, the token is still active and the supplied
secret equals the stored one; in every other case it returns an error. -/
theorem C3_validate_iff (s : Store) (now sid : Nat) (secret : String)
    (qs : QRSession) (cs : ClassSession)
    (hq : s.qr_sessions.find? (fun q => q.id == sid) = some qs)
    (hc : s.class_sessions.find?
        (fun c => c.id == qs.class_session_id) = some cs) :
    validate s now sid secret = ValidateResult.ok qs cs
    ↔ now ≤ qs.expires_at ∧ qs.active = true ∧ secret = qs.token := by
  unfold validate
  rw [hq]
  dsimp only
  by_cases h1 : (qs.token != secret || !qs.active) = true
  · rw [if_pos h1]
    simp only [Bool.or_eq_true, bne_iff_ne, ne_eq, Bool.not_eq_true'] at h1
    constructor
    · intro h; cases h
    · rintro ⟨hle, hact, hsec⟩
      cases h1 with
      | inl h1 => exact absurd hsec.symm h1
      | inr h1 => rw [hact] at h1; cases h1
  · rw [if_neg h1]
    simp only [Bool.or_eq_true, bne_iff_ne, ne_eq, Bool.not_eq_true',
      not_or, not_not] at h1
    obtain ⟨hsec, hact⟩ := h1
    have hact' : qs.active = true := by
      cases hb : qs.active with
      | false => exact absurd hb hact
      | true => rfl
    by_cases h2 : now > qs.expires_at
    · rw [if_pos h2]
      constructor
      · intro h; cases h
      · rintro ⟨hle, _, _⟩; omega
    · rw [if_neg h2, hc]
      exact ⟨fun _ => ⟨Nat.le_of_not_lt h2, hact', hsec.symm⟩, fun _ => rfl⟩

/-- C3 witness: at time 30 (the expiry instant itself) the example token
with the correct secret validates to the example session. -/
theorem C3_validate_iff_witness :
    validate exStore 30 1 "tok" = ValidateResult.ok exToken exSession :=
  (C3_validate_iff exStore 30 1 "tok" exToken exSession (by decide)
    (by decide)).mpr (by decide)

/-- C5 counterexample: an absent token id, a wrong secret and an inactive
token all produce the identical invalidOrInactive response, so the caller
cannot tell NotFound, SecretMismatch and Inactive apart; only the expiry
failure is reported distinctly. -/
theorem C5_counterexample :
    validate exStore 0 99 "tok" = ValidateResult.invalidOrInactive
    ∧ validate exStore 0 1 "bad" = ValidateResult.invalidOrInactive
    ∧ validate exStore 0 2 "tok" = ValidateResult.invalidOrInactive
    ∧ validate exStore 31 1 "tok" = ValidateResult.expired := by decide

/-- C5 amended: validation distinguishes exactly two error kinds.  The
combined invalidOrInactive response is returned precisely when the token
is absent, its secret differs or it is inactive, and the expired response
precisely when the token is present, matching and active but the clock is
strictly past expires_at. -/
theorem C5_two_error_kinds (s : Store) (now sid : Nat) (secret : String) :
    (validate s now sid secret = ValidateResult.invalidOrInactive
      ↔ s.qr_sessions.find? (fun q => q.id == sid) = none
        ∨ ∃ qs, s.qr_sessions.find? (fun q => q.id == sid) = some qs
            ∧ (qs.token ≠ secret ∨ qs.active = false))
    ∧ (validate s now sid secret = ValidateResult.expired
      ↔ ∃ qs, s.qr_sessions.find? (fun q => q.id == sid) = some qs
          ∧ qs.token = secret ∧ qs.active = true ∧ qs.expires_at < now) := by
  unfold validate
  cases hfind : s.qr_sessions.find? (fun q => q.id == sid) with
  | none => simp
  | some qs =>
    dsimp only
    by_cases h1 : (qs.token != secret || !qs.active) = true
    · rw [if_pos h1]
      simp only [Bool.or_eq_true, bne_iff_ne, ne_eq, Bool.not_eq_true'] at h1
      constructor
      · simp only [true_iff]
        exact Or.inr ⟨qs, rfl, h1⟩
      · constructor
        · intro h; cases h
        · rintro ⟨qs', hqs', hsec, hact, _⟩
          rw [Option.some.injEq] at hqs'
          subst hqs'
          cases h1 with
          | inl h1 => exact absurd hsec h1
          | inr h1 => rw [hact] at h1; cases h1
    · rw [if_neg h1]
      simp only [Bool.or_eq_true, bne_iff_ne, ne_eq, Bool.not_eq_true',
        not_or, not_not] at h1
      obtain ⟨hsec, hact⟩ := h1
      have hact' : qs.active = true := by
        cases hb : qs.active with
        | false => exact absurd hb hact
        | true => rfl
      by_cases h2 : now > qs.expires_at
      · rw [if_pos h2]
        constructor
        · constructor
          · intro h; cases h
          · rintro (h | ⟨qs', hqs', hbad⟩)
            · cases h
            · rw [Option.some.injEq] at hqs'
              subst hqs'
              cases hbad with
              | inl hbad => exact absurd hsec hbad
              | inr hbad => rw [hact'] at hbad; cases hbad
        · simp only [true_iff]
          exact ⟨qs, rfl, hsec, hact', h2⟩
      · rw [if_neg h2]
        cases hcs : s.class_sessions.find?
            (fun c => c.id == qs.class_session_id) with
        | none =>
          constructor
          · constructor
            · intro h; cases h
            · rintro (h | ⟨qs', hqs', hbad⟩)
              · cases h
              · rw [Option.some.injEq] at hqs'
                subst hqs'
                cases hbad with
                | inl hbad => exact absurd hsec hbad
                | inr hbad => rw [hact'] at hbad; cases hbad
          · constructor
            · intro h; cases h
            · rintro ⟨qs', hqs', _, _, hexp⟩
              rw [Option.some.injEq] at hqs'
              subst hqs'
              omega
        | some cs =>
          constructor
          · constructor
            · intro h; cases h
            · rintro (h | ⟨qs', hqs', hbad⟩)
              · cases h
              · rw [Option.some.injEq] at hqs'
                subst hqs'
                cases hbad with
                | inl hbad => exact absurd hsec hbad
                | inr hbad => rw [hact'] at hbad; cases hbad
          · constructor
            · intro h; cases h
            · rintro ⟨qs', hqs', _, _, hexp⟩
              rw [Option.some.injEq] at hqs'
              subst hqs'
              omega

/-- C5 amended witness: a wrong secret against the example store yields
the combined invalidOrInactive response. -/
theorem C5_two_error_kinds_witness :
    validate exStore 0 1 "bad" = ValidateResult.invalidOrInactive :=
  (C5_two_error_kinds exStore 0 1 "bad").1.mpr
    (Or.inr ⟨exToken, by decide, Or.inl (by decide)⟩)


/-- congruence for validate. -/
theorem validate_congr (s1 s2 : Store) (now sid : Nat) (tok : String)
    (hq : s1.qr_sessions = s2.qr_sessions)
    (hc : s1.class_sessions = s2.class_sessions) :
    validate s1 now sid tok = validate s2 now sid tok := by
  unfold validate
  rw [hq, hc]

/-- Inversion of a successful POST. -/
theorem student_scan_success_inv (s : Store) (now sid : Nat)
    (tok roll : String) (a : Attendance) (st : Student) (cs : ClassSession)
    (h : (student_scan s now (some sid) (some tok) true (some roll)).2
        = ScanResult.success a st cs) :
    tok ≠ "" ∧ roll ≠ ""
    ∧ (∃ qs, validate s now sid tok = ValidateResult.ok qs cs)
    ∧ s.students.find? (fun t => t.roll_number == roll
        && t.batch == cs.batch && t.course == cs.course) = some st
    ∧ s.attendance.find? (fun r => r.student_id == st.id
        && r.class_session_id == cs.id) = none
    ∧ a = { id := s.next_att_id, student_id := st.id,
            class_session_id := cs.id, timestamp := now,
            status := "Present" }
    ∧ (student_scan s now (some sid) (some tok) true (some roll)).1
      = { s with
          attendance := s.attendance ++ [a],
          next_att_id := s.next_att_id + 1 } := by
  simp only [student_scan] at h ⊢
  by_cases h1 : tok = ""
  · rw [if_pos h1] at h; cases h
  rw [if_neg h1] at h ⊢
  cases hv : validate s now sid tok with
  | invalidOrInactive => rw [hv] at h; cases h
  | expired => rw [hv] at h; cases h
  | fkMissing => rw [hv] at h; cases h
  | ok qs cs0 =>
    rw [hv] at h
    dsimp only at h ⊢
    simp only [if_true] at h ⊢
    by_cases h2 : roll = ""
    · rw [if_pos h2] at h; cases h
    rw [if_neg h2] at h ⊢
    cases hst : s.students.find? (fun t => t.roll_number == roll
        && t.batch == cs0.batch && t.course == cs0.course) with
    | none => rw [hst] at h; cases h
    | some st0 =>
      rw [hst] at h
      dsimp only at h ⊢
      cases hatt : s.attendance.find? (fun r => r.student_id == st0.id
          && r.class_session_id == cs0.id) with
      | some r => rw [hatt] at h; cases h
      | none =>
        rw [hatt] at h
        dsimp only at h ⊢
        injection h with ha hst0 hcs0
        subst hst0
        subst hcs0
        subst ha
        exact ⟨h1, h2, ⟨qs, rfl⟩, hst, hatt, rfl, rfl⟩


/-- C7: a successful check-in appends exactly one attendance row whose
timestamp is the current clock and whose status is the string Present,
and the returned record is that row. -/
theorem C7_success_record (s : Store) (now sid : Nat) (tok roll : String)
    (a : Attendance) (st : Student) (cs : ClassSession)
    (h : (student_scan s now (some sid) (some tok) true (some roll)).2
        = ScanResult.success a st cs) :
    a.timestamp = now ∧ a.status = "Present"
    ∧ (student_scan s now (some sid) (some tok) true (some roll)).1.attendance
      = s.attendance ++ [a] := by
  obtain ⟨-, -, -, -, -, ha, hs1⟩ :=
    student_scan_success_inv s now sid tok roll a st cs h
  refine ⟨?_, ?_, ?_⟩
  · rw [ha]
  · rw [ha]
  · rw [hs1]

/-- C7 witness: checking roll 7 in against the example token at time 5
appends the Present record stamped 5. -/
theorem C7_success_record_witness :
    (student_scan exStore 5 (some 1) (some ("tok")) true (some ("7"))).1.attendance
      = exStore.attendance ++
        [{ id := 1, student_id := 1, class_session_id := 1, timestamp := 5,
           status := "Present" }] :=
  (C7_success_record exStore 5 1 "tok" "7"
    { id := 1, student_id := 1, class_session_id := 1, timestamp := 5,
      status := "Present" } exStudent exSession (by decide)).2.2

/-- C1: a first successful check-in stores exactly one attendance row for
the (student, class session) pair, and any later check-in with the same
roll number through any token that validates to the same session returns
the alreadyMarked outcome carrying that same row and leaves the store
unchanged. -/
theorem C1_checkin_idempotent (s : Store) (now now2 sid sid2 : Nat)
    (tok tok2 roll : String) (a : Attendance) (st : Student)
    (cs : ClassSession) (qs2 : QRSession)
    (h1 : (student_scan s now (some sid) (some tok) true (some roll)).2
        = ScanResult.success a st cs)
    (htok2 : tok2 ≠ "")
    (hv2 : validate s now2 sid2 tok2 = ValidateResult.ok qs2 cs) :
    (student_scan s now (some sid) (some tok) true (some roll)).1.attendance
      = s.attendance ++ [a]
    ∧ (student_scan s now (some sid) (some tok) true
        (some roll)).1.attendance.countP
        (fun r => r.student_id == st.id && r.class_session_id == cs.id) = 1
    ∧ student_scan (student_scan s now (some sid) (some tok) true
        (some roll)).1 now2 (some sid2) (some tok2) true (some roll)
      = ((student_scan s now (some sid) (some tok) true (some roll)).1,
         ScanResult.alreadyMarked a) := by
  obtain ⟨-, hroll, -, hst, hatt, ha, hs1⟩ :=
    student_scan_success_inv s now sid tok roll a st cs h1
  have hpa : (fun r : Attendance => r.student_id == st.id
      && r.class_session_id == cs.id) a = true := by
    rw [ha]; simp
  have h0 : s.attendance.countP (fun r => r.student_id == st.id
      && r.class_session_id == cs.id) = 0 :=
    List.countP_eq_zero.mpr (List.find?_eq_none.mp hatt)
  refine ⟨?_, ?_, ?_⟩
  · rw [hs1]
  · rw [hs1]
    dsimp only
    rw [List.countP_append, h0]
    simp [List.countP_cons, hpa]
  · rw [hs1]
    have hveq : validate { s with
        attendance := s.attendance ++ [a],
        next_att_id := s.next_att_id + 1 } now2 sid2 tok2
        = ValidateResult.ok qs2 cs :=
      (validate_congr _ s now2 sid2 tok2 rfl rfl).trans hv2
    simp only [student_scan]
    rw [if_neg htok2, hveq]
    dsimp only
    simp only [if_true]
    rw [if_neg hroll]
    rw [hst]
    dsimp only
    have hfa : List.find? (fun r : Attendance => r.student_id == st.id
        && r.class_session_id == cs.id) [a] = some a :=
      List.find?_cons_of_pos _ hpa
    rw [find?_append_none _ _ _ hatt, hfa]

/-- C1 witness: after roll 7 checks in at time 5, a second submission at
time 9 through the same token reports alreadyMarked with the original
record and does not change the store. -/
theorem C1_checkin_idempotent_witness :
    (student_scan exStore 5 (some 1) (some ("tok")) true (some ("7"))).1.attendance
      = exStore.attendance ++
        [{ id := 1, student_id := 1, class_session_id := 1, timestamp := 5,
           status := "Present" }]
    ∧ (student_scan exStore 5 (some 1) (some ("tok")) true
        (some ("7"))).1.attendance.countP
        (fun r => r.student_id == exStudent.id
          && r.class_session_id == exSession.id) = 1
    ∧ student_scan (student_scan exStore 5 (some 1) (some ("tok")) true
        (some ("7"))).1 9 (some 1) (some ("tok")) true (some ("7"))
      = ((student_scan exStore 5 (some 1) (some ("tok")) true (some ("7"))).1,
         ScanResult.alreadyMarked
           { id := 1, student_id := 1, class_session_id := 1, timestamp := 5,
             status := "Present" }) :=
  C1_checkin_idempotent exStore 5 9 1 1 "tok" "tok" "7"
    { id := 1, student_id := 1, class_session_id := 1, timestamp := 5,
      status := "Present" } exStudent exSession exToken
    (by decide) (by decide) (by decide)

/-- Every POST either leaves the store unchanged or reports a success. -/
theorem student_scan_post_cases (s : Store) (now : Nat) (sid : Option Nat)
    (tok roll : Option String) :
    (student_scan s now sid tok true roll).1 = s
    ∨ ∃ a st cs, (student_scan s now sid tok true roll).2
        = ScanResult.success a st cs := by
  cases sid with
  | none => left; cases tok <;> rfl
  | some sidv =>
    cases tok with
    | none => left; rfl
    | some tokv =>
      simp only [student_scan]
      by_cases h1 : tokv = ""
      · left; rw [if_pos h1]
      · rw [if_neg h1]
        cases validate s now sidv tokv with
        | invalidOrInactive => left; rfl
        | expired => left; rfl
        | fkMissing => left; rfl
        | ok qs cs =>
          dsimp only
          simp only [if_true]
          cases roll with
          | none => left; rfl
          | some rollv =>
            dsimp only
            by_cases h2 : rollv = ""
            · left; rw [if_pos h2]
            · rw [if_neg h2]
              cases s.students.find? (fun t => t.roll_number == rollv
                  && t.batch == cs.batch && t.course == cs.course) with
              | none => left; rfl
              | some st =>
                dsimp only
                cases s.attendance.find? (fun r => r.student_id == st.id
                    && r.class_session_id == cs.id) with
                | some r => left; rfl
                | none => right; exact ⟨_, _, _, rfl⟩

/-- C9: whenever a POST to the scan route produces any outcome other than
a success render, the store is exactly what it was before the call: no
attendance row is created on any error path. -/
theorem C9_error_atomic (s : Store) (now : Nat) (sid : Option Nat)
    (tok roll : Option String)
    (h : ∀ a st cs, (student_scan s now sid tok true roll).2
        ≠ ScanResult.success a st cs) :
    (student_scan s now sid tok true roll).1 = s := by
  cases student_scan_post_cases s now sid tok roll with
  | inl h1 => exact h1
  | inr h1 =>
    obtain ⟨a, st, cs, h1⟩ := h1
    exact absurd h1 (h a st cs)

/-- C9 witness: a wrong secret leaves the example store untouched. -/
theorem C9_error_atomic_witness :
    (student_scan exStore 0 (some 1) (some ("bad")) true (some ("7"))).1
      = exStore :=
  C9_error_atomic exStore 0 (some 1) (some ("bad")) (some ("7")) (by
    intro a st cs hcon
    have heq : (student_scan exStore 0 (some 1) (some ("bad")) true
        (some ("7"))).2 = ScanResult.invalidOrInactive := by decide
    rw [heq] at hcon
    cases hcon)

/-- C4 counterexample: roll 8 belongs to a stored student whose batch
differs from the session (the claim expects a NotEligible outcome) and
roll 99 belongs to nobody (the claim expects UnknownStudent), yet the
handler returns the identical invalidRoll response for both, so the two
cases are not distinguished. -/
theorem C4_counterexample :
    (student_scan exStore 5 (some 1) (some ("tok")) true (some ("8"))).2
      = ScanResult.invalidRoll
    ∧ (student_scan exStore 5 (some 1) (some ("tok")) true (some ("99"))).2
      = ScanResult.invalidRoll
    ∧ exStudentB2 ∈ exStore.students
    ∧ exStudentB2.roll_number = "8"
    ∧ exStudentB2.batch ≠ exSession.batch
    ∧ (∀ st ∈ exStore.students, st.roll_number ≠ "99") := by decide

/-- C4 amended: with a valid token, whenever no stored student satisfies
the combined filter (roll number matches and batch and course equal the
session cohort) the check-in is rejected with the single invalidRoll
outcome; an unknown roll number and a cohort mismatch are rejected
identically. -/
theorem C4_combined_rejection (s : Store) (now sid : Nat) (tok roll : String)
    (qs : QRSession) (cs : ClassSession)
    (htok : tok ≠ "") (hroll : roll ≠ "")
    (hv : validate s now sid tok = ValidateResult.ok qs cs)
    (hno : ∀ st ∈ s.students, st.roll_number = roll →
        ¬(st.batch = cs.batch ∧ st.course = cs.course)) :
    student_scan s now (some sid) (some tok) true (some roll)
      = (s, ScanResult.invalidRoll) := by
  have hnone : s.students.find? (fun t => t.roll_number == roll
      && t.batch == cs.batch && t.course == cs.course) = none := by
    rw [List.find?_eq_none]
    intro x hx hcon
    simp only [Bool.and_eq_true, beq_iff_eq] at hcon
    exact hno x hx hcon.1.1 ⟨hcon.1.2, hcon.2⟩
  simp only [student_scan]
  rw [if_neg htok, hv]
  dsimp only
  simp only [if_true]
  rw [if_neg hroll, hnone]

/-- C4 amended witness: the cohort-mismatched roll 8 is rejected with the
combined invalidRoll outcome. -/
theorem C4_combined_rejection_witness :
    student_scan exStore 5 (some 1) (some ("tok")) true (some ("8"))
      = (exStore, ScanResult.invalidRoll) :=
  C4_combined_rejection exStore 5 1 "tok" "8" exToken exSession
    (by decide) (by decide) (by decide) (by decide)

end QRAttendance
